import Mathlib

/-!
Verification development for the azure-aci remote-metrics collection engine.

The Go source consists of two files:
* `provider/metrics.go` — `GetStatsSummary` (freshness cache, bounded
  concurrent fan-out over running pods, fail-fast error handling) and
  `collectMetrics` (pure merge of the raw Azure Insights time-series
  responses into a `stats.PodStats`).
* `client/aci` fragment — the HTTP client construction (`NewClient`) and the
  retry configuration constants (`StatusCodesForRetry`, wait bounds,
  attempt cap).

Modelling conventions:
* Go pointers become `Option`; dereferencing a `nil` pointer (a run-time
  panic) is modelled by returning `none` from the embedded function, so a
  total run of the Go code corresponds to an `isSome` result.
* `uint64` values are `Nat` reduced modulo `2^64` at every operation that
  can overflow.
* `float64` metric averages are modelled as `ℚ`; the Go conversion
  `uint64(f)` (truncation toward zero for in-range values) is modelled by
  `toUint64`.
* Timestamps (`time.Time` / `metav1.Time` / `date.Time`) are modelled as
  `Int` nanoseconds; the zero `metav1.Time` is `0`.
* The Go `map[string]*stats.ContainerStats` accumulator is modelled as an
  insertion-ordered association list; Go's map iteration order is
  unspecified, the model fixes insertion order for the final append loop.
-/

namespace ACI

attribute [local semireducible] Rat.mul

deriving instance DecidableEq for Except

/-- `to.String : *string → string` from go-autorest: `""` for `nil`. -/
def toStr (s : Option String) : String := s.getD ""

/-- `to.Float64 : *float64 → float64` from go-autorest: `0` for `nil`. -/
def toFloat (q : Option ℚ) : ℚ := q.getD 0

/-- `strings.ToLower` (only ASCII letters occur in the compared metadata
names): lower-case every character.  Extensionally this is Lean's
`String.toLower`; it is spelled out over the character list so that it
evaluates by kernel reduction. -/
def strToLower (s : String) : String := String.mk (s.data.map Char.toLower)

/-- The modulus of Go's `uint64`. -/
def U64 : Nat := 2 ^ 64

/-- Go's `uint64(f)` conversion of a `float64`, truncation toward zero,
modelled on `ℚ` (out-of-range behaviour is platform specific in Go; the
claims only exercise small non-negative values). -/
def toUint64 (q : ℚ) : Nat :=
  (if 0 ≤ q then Rat.floor q else Rat.ceil q).toNat % U64

/-- `insights.LocalizableString`; only the `Value *string` field is ever
read by the code under verification (`LocalizedValue` is never read). -/
structure LocalizableString where
  value : Option String
deriving DecidableEq, Repr

/-- `insights.MetadataValue`: `Name *LocalizableString`, `Value *string`. -/
structure MetadataValue where
  name : Option LocalizableString
  value : Option String
deriving DecidableEq, Repr

/-- `insights.MetricValue`; only `TimeStamp *date.Time` and
`Average *float64` are read by `collectMetrics`. -/
structure MetricValue where
  timeStamp : Option Int
  average : Option ℚ
deriving DecidableEq, Repr

/-- `insights.TimeSeriesElement`: `Metadatavalues *[]MetadataValue`,
`Data *[]MetricValue`. -/
structure TimeSeriesElement where
  metadatavalues : Option (List MetadataValue)
  data : Option (List MetricValue)
deriving DecidableEq, Repr

/-- `insights.Metric`: `Name *LocalizableString`,
`Timeseries *[]TimeSeriesElement`. -/
structure Metric where
  name : Option LocalizableString
  timeseries : Option (List TimeSeriesElement)
deriving DecidableEq, Repr

/-- `insights.Response`: `Value *[]Metric`. -/
structure Response where
  value : Option (List Metric)
deriving DecidableEq, Repr

/-- Modelled from the spec: the metric type identifier constants
(`aci.MetricTypeCPUUsage` and friends) are declared in `client/aci/types`,
which is not under `src/`; the spec names them "CPU usage", "memory
usage", "network bytes received per second", "network bytes transmitted
per second". Only their identity (four pairwise distinct strings) matters
to `collectMetrics`. -/
def MetricTypeCPUUsage : String := "CpuUsage"

/-- Modelled from the spec: memory-usage metric type identifier. -/
def MetricTypeMemoryUsage : String := "MemoryUsage"

/-- Modelled from the spec: network bytes-received-per-second metric type
identifier (the Go constant keeps the source's spelling `Recieved`). -/
def MetricTyperNetworkBytesRecievedPerSecond : String := "NetworkBytesReceivedPerSecond"

/-- Modelled from the spec: network bytes-transmitted-per-second metric
type identifier. -/
def MetricTyperNetworkBytesTransmittedPerSecond : String := "NetworkBytesTransmittedPerSecond"

/-- `stats.CPUStats` (the fields written by `collectMetrics`):
`Time`, `UsageNanoCores *uint64`, `UsageCoreNanoSeconds *uint64`. -/
structure CPUStats where
  time : Int
  usageNanoCores : Option Nat
  usageCoreNanoSeconds : Option Nat
deriving DecidableEq, Repr

/-- `stats.MemoryStats` (fields written by `collectMetrics`):
`Time`, `UsageBytes *uint64`, `WorkingSetBytes *uint64`. -/
structure MemoryStats where
  time : Int
  usageBytes : Option Nat
  workingSetBytes : Option Nat
deriving DecidableEq, Repr

/-- `stats.NetworkStats` with its embedded `InterfaceStats` flattened:
`Time`, `Name`, `RxBytes *uint64`, `TxBytes *uint64`. -/
structure NetworkStats where
  time : Int := 0
  name : String := ""
  rxBytes : Option Nat := none
  txBytes : Option Nat := none
deriving DecidableEq, Repr

/-- `stats.ContainerStats` (fields written by `collectMetrics`). -/
structure ContainerStats where
  name : String
  startTime : Int
  cpu : Option CPUStats := none
  memory : Option MemoryStats := none
deriving DecidableEq, Repr

/-- `stats.PodReference`. -/
structure PodRef where
  name : String := ""
  nspace : String := ""
  uid : String := ""
deriving DecidableEq, Repr

/-- `stats.PodStats` (fields written by `collectMetrics`). `containers`
is `Option` to keep Go's distinction between a `nil` slice and an
allocated empty slice. -/
structure PodStats where
  podRef : PodRef := {}
  startTime : Int := 0
  containers : Option (List ContainerStats) := none
  cpu : Option CPUStats := none
  memory : Option MemoryStats := none
  network : Option NetworkStats := none
deriving DecidableEq, Repr

/-- The relevant fields of `v1.Pod`: name, namespace (`nspace`), UID,
status phase, creation timestamp. -/
structure Pod where
  name : String
  nspace : String
  uid : String
  phase : String
  creationTimestamp : Int
deriving DecidableEq, Repr

/-- `v1.PodRunning`. -/
def podRunning : String := "Running"

/-- The `map[string]*stats.ContainerStats` accumulator of
`collectMetrics`, as an insertion-ordered association list. -/
abbrev CSMap := List (String × ContainerStats)

/-- Replace the value stored at key `k` (models mutation through the Go
map's stored pointer). -/
def updateCS (m : CSMap) (k : String) (c : ContainerStats) : CSMap :=
  m.map (fun p => if p.1 = k then (k, c) else p)

/-- The metadata loop of `collectMetrics` (lines 157–165): for every
metadata value `v`, dereference `v.Name` (a `nil` `Name` panics, modelled
as `none`), skip it unless `strings.ToLower(to.String(v.Name.Value))`
equals `"containername"`, otherwise look up `to.String(v.Value)` in the
accumulator map, creating a fresh `ContainerStats` when absent; `cur`
carries the Go variable `cs` (here the key together with the stats it
points at). -/
def metaLoop (startTime : Int) :
    List MetadataValue → CSMap → Option (String × ContainerStats) →
    Option (CSMap × Option (String × ContainerStats))
  | [], m, cur => some (m, cur)
  | v :: rest, m, cur =>
    match v.name with
    | none => none
    | some nm =>
      if strToLower (toStr nm.value) ≠ "containername" then
        metaLoop startTime rest m cur
      else
        let key := toStr v.value
        match m.lookup key with
        | some c => metaLoop startTime rest m (some (key, c))
        | none =>
          let c : ContainerStats := { name := key, startTime := startTime }
          metaLoop startTime rest (m ++ [(key, c)]) (some (key, c))

/-- One iteration of the inner entry loop of the system-metrics pass of
`collectMetrics` (lines 150–225): skip entries with `nil`/empty `Data`,
run the metadata loop (dereferencing `Metadatavalues`), skip the entry if
no container was attributed, initialize `stat.Containers` otherwise, take
the last data point, and dispatch on the metric name (CPU / memory /
other), updating the per-container accumulator and the pod-level roll-up.
`none` models a `nil`-pointer panic. -/
def processEntry (startTime : Int) (mName : Option LocalizableString)
    (st : PodStats × CSMap) (entry : TimeSeriesElement) :
    Option (PodStats × CSMap) :=
  match entry.data with
  | none => some st
  | some [] => some st
  | some (d0 :: ds) =>
    match entry.metadatavalues with
    | none => none
    | some mvs =>
      match metaLoop startTime mvs st.2 none with
      | none => none
      | some (csMap, none) => some (st.1, csMap)
      | some (csMap, some (key, cs)) =>
        let stat := { st.1 with containers := some (st.1.containers.getD []) }
        let data := (d0 :: ds).getLastD { timeStamp := none, average := none }
        match mName with
        | none => none
        | some nm =>
          if toStr nm.value = MetricTypeCPUUsage then
            let nanoCores := toUint64 (toFloat data.average * 1000000)
            let usageNanoSeconds := nanoCores * 60 % U64
            let timestamp := data.timeStamp.getD 0
            let csCPU : CPUStats :=
              { time := timestamp,
                usageNanoCores := some nanoCores,
                usageCoreNanoSeconds := some usageNanoSeconds }
            let csMap := updateCS csMap key { cs with cpu := some csCPU }
            let zeroCPU : CPUStats :=
              { time := timestamp, usageNanoCores := some 0,
                usageCoreNanoSeconds := some 0 }
            let podCPU := stat.cpu.getD zeroCPU
            match podCPU.usageCoreNanoSeconds, podCPU.usageNanoCores with
            | some s0, some c0 =>
              let podCPU' : CPUStats :=
                { podCPU with
                  usageCoreNanoSeconds := some ((s0 + usageNanoSeconds) % U64),
                  usageNanoCores := some ((c0 + nanoCores) % U64) }
              some ({ stat with cpu := some podCPU' }, csMap)
            | _, _ => none
          else if toStr nm.value = MetricTypeMemoryUsage then
            let timestamp := data.timeStamp.getD 0
            let bytes := toUint64 (toFloat data.average)
            let csMem : MemoryStats :=
              { time := timestamp, usageBytes := some bytes,
                workingSetBytes := some bytes }
            let csMap := updateCS csMap key { cs with memory := some csMem }
            let zeroMem : MemoryStats :=
              { time := timestamp, usageBytes := some 0,
                workingSetBytes := some 0 }
            let podMem := stat.memory.getD zeroMem
            match podMem.usageBytes with
            | some b0 =>
              let pm := (b0 + bytes) % U64
              let podMem' : MemoryStats :=
                { podMem with usageBytes := some pm, workingSetBytes := some pm }
              some ({ stat with memory := some podMem' }, csMap)
            | none => none
          else
            some (stat, csMap)

/-- The per-metric step of the system pass of `collectMetrics`:
dereference `m.Timeseries` and fold `processEntry` over its entries. -/
def processMetric (startTime : Int) (st : PodStats × CSMap) (m : Metric) :
    Option (PodStats × CSMap) :=
  match m.timeseries with
  | none => none
  | some ts => ts.foldlM (processEntry startTime m.name) st

/-- One iteration of the network loop of `collectMetrics` (lines
228–254): allocate `stat.Network` if still `nil`, dereference
`m.Timeseries`, skip metrics with no time-series entry, consult only the
first entry, skip it when its `Data` is `nil`/empty, take the last data
point, and map the metric name to `RxBytes` / `TxBytes`; the timestamp is
attached when present and the interface name is fixed to `"eth0"`. -/
def processNetMetric (st : PodStats) (m : Metric) : Option PodStats :=
  let stat := if st.network.isNone then { st with network := some {} } else st
  match m.timeseries with
  | none => none
  | some [] => some stat
  | some (entry :: _) =>
    match entry.data with
    | none => some stat
    | some [] => some stat
    | some (d0 :: ds) =>
      let data := (d0 :: ds).getLastD { timeStamp := none, average := none }
      let bytes := toUint64 (toFloat data.average)
      match m.name with
      | none => none
      | some nm =>
        let net0 := stat.network.getD {}
        let net1 :=
          if toStr nm.value = MetricTyperNetworkBytesRecievedPerSecond then
            { net0 with rxBytes := some bytes }
          else if toStr nm.value = MetricTyperNetworkBytesTransmittedPerSecond then
            { net0 with txBytes := some bytes }
          else net0
        let net2 := match data.timeStamp with
          | some t => { net1 with time := t }
          | none => net1
        some { stat with network := some { net2 with name := "eth0" } }

/-- `collectMetrics(pod, system, net)` (metrics.go lines 143–267): the
pure merge of the two raw Insights responses into a `PodStats`. `none`
models a `nil`-pointer panic during the merge. -/
def collectMetrics (pod : Pod) (system net : Response) : Option PodStats :=
  let stat0 : PodStats := { startTime := pod.creationTimestamp }
  match system.value with
  | none => none
  | some ms =>
    match ms.foldlM (processMetric pod.creationTimestamp) (stat0, ([] : CSMap)) with
    | none => none
    | some (stat1, csMap) =>
      match net.value with
      | none => none
      | some ns =>
        match ns.foldlM processNetMetric stat1 with
        | none => none
        | some stat2 =>
          let stat3 := csMap.foldl
            (fun st kc => { st with containers := some ((st.containers.getD []) ++ [kc.2]) })
            stat2
          some { stat3 with
                 podRef := { name := pod.name, nspace := pod.nspace, uid := pod.uid } }

/-! ## Collection orchestrator (`GetStatsSummary`, metrics.go lines 21–141)

The method is embedded as a state-passing function.  The mutable provider
fields guarded by `p.metricsSync` become `ProviderState`; the three
`time.Now()` readings of one call (freshness check, window end, cache
store) are collapsed to a single instant `now`; the two remote calls of a
task are oracles `fetchSys`/`fetchNet`; the goroutines of the `errgroup`
are sequentialized in pod order (the claims under verification do not
depend on the interleaving: all tasks always run to completion because the
plain `errgroup.Group` carries no cancellation, `Wait` returns the first
error, and the result channel is drained only on the all-success path).
The `Nat` component of the result counts issued remote metrics calls; the
outer `Option` is `none` when some task panicked inside `collectMetrics`
(which would crash the Go process). -/

/-- `stats.Summary` as assembled at metrics.go lines 130–138: the node
name and the pod stats drained from the result channel. -/
structure Summary where
  nodeName : String
  pods : List PodStats
deriving DecidableEq, Repr

/-- The cached slot: `p.lastMetric *stats.Summary` and
`p.metricsSyncTime time.Time`. -/
structure ProviderState where
  lastMetric : Option Summary
  metricsSyncTime : Int
deriving DecidableEq

/-- `time.Minute` in nanoseconds. -/
def timeMinute : Int := 60000000000

/-- Which of the two per-target remote calls failed. -/
inductive MetricFamily
  | systemStats
  | networkStats
deriving DecidableEq, Repr

/-- The wrapped per-task error: which metric family failed for which pod
(`errors.Wrapf` at metrics.go lines 102 and 114). -/
structure TaskError where
  family : MetricFamily
  podName : String
  podNamespace : String
  underlying : String
deriving DecidableEq, Repr

/-- The orchestrator's error: the context-cancellation check (line 44) or
the wrapped first task error (line 125). -/
inductive RoundError
  | ctxCancelled
  | fetchFailed (e : TaskError)
deriving DecidableEq, Repr

/-- One fan-out task (the closure passed to `errGroup.Go`, lines 71–120):
fetch cpu/mem stats, then network stats, then merge via `collectMetrics`.
The `Nat` counts the remote metrics calls the task issued; `.ok none`
records a panic inside `collectMetrics`. -/
def runTask (fetchSys fetchNet : Pod → Except String Response) (pod : Pod) :
    Except TaskError (Option PodStats) × Nat :=
  match fetchSys pod with
  | .error e =>
    (.error { family := .systemStats, podName := pod.name,
              podNamespace := pod.nspace, underlying := e }, 1)
  | .ok sys =>
    match fetchNet pod with
    | .error e =>
      (.error { family := .networkStats, podName := pod.name,
                podNamespace := pod.nspace, underlying := e }, 2)
    | .ok net => (.ok (collectMetrics pod sys net), 2)

/-- Run every task (the `errgroup` runs all goroutines to completion) and
reproduce `errGroup.Wait`: the first task error in order, else the results
in order; `none` when any task panicked, since a goroutine panic crashes
the process regardless of other tasks' errors. -/
def runTasks (fetchSys fetchNet : Pod → Except String Response) :
    List Pod → Option (Except TaskError (List PodStats)) × Nat
  | [] => (some (.ok []), 0)
  | pod :: rest =>
    let r := runTask fetchSys fetchNet pod
    let rs := runTasks fetchSys fetchNet rest
    let calls := r.2 + rs.2
    match r.1 with
    | .ok none => (none, calls)
    | .ok (some stat) =>
      match rs.1 with
      | none => (none, calls)
      | some (.error e) => (some (.error e), calls)
      | some (.ok l) => (some (.ok (stat :: l)), calls)
    | .error e =>
      match rs.1 with
      | none => (none, calls)
      | some _ => (some (.error e), calls)

/-- `GetStatsSummary` (metrics.go lines 21–141): serve the cache when it
is younger than one minute, otherwise check cancellation, fan out one task
per running pod, fail the round on the first task error leaving the cache
slot untouched, and on full success assemble the Summary and store it with
the current timestamp (the deferred update, lines 49–55, runs only when
`err == nil`). -/
def GetStatsSummary (p : ProviderState) (nodeName : String) (now : Int)
    (ctxDone : Bool) (pods : List Pod)
    (fetchSys fetchNet : Pod → Except String Response) :
    Option (Except RoundError (Option Summary) × ProviderState × Nat) :=
  if now - p.metricsSyncTime < timeMinute then
    some (.ok p.lastMetric, p, 0)
  else if ctxDone then
    some (.error .ctxCancelled, p, 0)
  else
    match runTasks fetchSys fetchNet (pods.filter (fun pod => pod.phase == podRunning)) with
    | (none, _) => none
    | (some (.error e), calls) => some (.error (.fetchFailed e), p, calls)
    | (some (.ok podStatsList), calls) =>
      let s : Summary := { nodeName := nodeName, pods := podStatsList }
      some (.ok (some s), { lastMetric := some s, metricsSyncTime := now }, calls)

/-! ## Resilient transport configuration (`client/aci`, src/unnamed/part_000) -/

/-- `StatusCodesForRetry` (part_000 lines 100–110): the declared group of
status codes for which the client will retry. -/
def StatusCodesForRetry : List Nat := [408, 429, 500, 502, 503, 504]

/-- `defaultRetryMax` (part_000 line 80): the attempt cap wired into the
retrying client in `NewClient`. -/
def defaultRetryMax : Nat := 4

/-- `defaultRetryWaitMin` in seconds (part_000 line 78). -/
def defaultRetryWaitMin : Nat := 1

/-- `defaultRetryWaitMax` in seconds (part_000 line 79). -/
def defaultRetryWaitMax : Nat := 30

/-- Modelled from the spec: the retry decision of the metrics client.
`GetContainerGroupMetrics` and the request path that consults the retry
policy are not under `src/`; the spec says "Retries are attempted only for
responses whose status code is in a fixed retryable set" and identifies
that set with the declared `StatusCodesForRetry`, with transient network
errors also retried.  `none` for `status` models a transient network
error (no response). -/
def shouldRetry (status : Option Nat) : Bool :=
  match status with
  | none => true
  | some code => StatusCodesForRetry.contains code

/-! ## Per-task event order (metrics.go lines 80–120)

The body of a fan-out task, linearized into its observable events.  The
semaphore send (line 83) precedes both remote calls; its release is the
deferred receive registered at lines 85–87, which runs when the closure
returns — i.e. after `collectMetrics` and the channel send on the success
path, or right after the failed fetch on an error path (deferred functions
run at function return, not at the point of registration). -/

/-- Observable events of one fan-out task. -/
inductive TaskStep
  | acquireGate
  | fetchSystem
  | fetchNet
  | merge
  | sendResult
  | releaseGate
deriving DecidableEq, Repr

/-- The event trace of one task, by fetch outcome: acquire the gate, fetch
cpu/mem stats (return on failure, running the deferred release), fetch
network stats (ditto), merge via `collectMetrics`, send the result, and
return (running the deferred release). -/
def taskTrace (sysOk netOk : Bool) : List TaskStep :=
  if !sysOk then
    [.acquireGate, .fetchSystem, .releaseGate]
  else if !netOk then
    [.acquireGate, .fetchSystem, .fetchNet, .releaseGate]
  else
    [.acquireGate, .fetchSystem, .fetchNet, .merge, .sendResult, .releaseGate]

/-! ## Admission gate (`sema := make(chan struct{}, 10)`, line 65)

A counting abstraction of the fan-out round: every task sends on `sema`
exactly once before its fetches and receives exactly once when it returns,
so a round is a transition system over the numbers of tasks waiting for,
holding, and finished with the gate.  A buffered channel of capacity 10
admits a send only while fewer than 10 sends are outstanding. -/

/-- The capacity of the admission-gate channel (line 65). -/
def semaCapacity : Nat := 10

/-- Counts of fan-out tasks by gate status. -/
structure GateState where
  waiting : Nat
  holding : Nat
  finished : Nat
deriving DecidableEq, Repr

/-- Transitions of the admission gate: a waiting task acquires a slot
(possible only while fewer than `semaCapacity` slots are taken), or a
holding task completes and releases its slot. -/
inductive GateStep : GateState → GateState → Prop
  | acquire (w h d : Nat) : h < semaCapacity →
      GateStep ⟨w + 1, h, d⟩ ⟨w, h + 1, d⟩
  | release (w h d : Nat) :
      GateStep ⟨w, h + 1, d⟩ ⟨w, h, d + 1⟩

/-- The states a round over `n` running pods can reach: reflexive
transitive closure of `GateStep` from the all-waiting state. -/
def GateReachable (n : Nat) (s : GateState) : Prop :=
  Relation.ReflTransGen GateStep ⟨n, 0, 0⟩ s

/-! ## Concrete scenario data shared by the aggregation theorems -/

/-- Pod used by the concrete aggregation scenarios. -/
def cpod : Pod :=
  { name := "p", nspace := "ns", uid := "u", phase := podRunning,
    creationTimestamp := 50 }

/-- Metadata attributing an entry to sub-unit `"web"`. -/
def webMeta : MetadataValue :=
  { name := some { value := some "containerName" }, value := some "web" }

/-- An Insights response whose `Value` is an allocated empty metric list. -/
def emptyResponse : Response := { value := some [] }

/-- A single-point CPU time-series entry attributed to container `cn`. -/
def cpuEntry (cn : String) (avgVal : ℚ) : TimeSeriesElement :=
  { metadatavalues := some [{ name := some { value := some "containerName" },
                              value := some cn }],
    data := some [{ timeStamp := some 160, average := some avgVal }] }

/-- A CPU usage metric with the given time-series entries. -/
def cpuMetric (ts : List TimeSeriesElement) : Metric :=
  { name := some { value := some MetricTypeCPUUsage }, timeseries := some ts }

/-- Spec-side projection: the pod-level CPU `UsageNanoCores`. -/
def podUsageNanoCores (st : PodStats) : Option Nat :=
  st.cpu.bind (fun c => c.usageNanoCores)

/-- Spec-side projection: the pod-level CPU `UsageCoreNanoSeconds`. -/
def podUsageCoreNanoSeconds (st : PodStats) : Option Nat :=
  st.cpu.bind (fun c => c.usageCoreNanoSeconds)

/-- Spec-side definition, following the claim's words "the sum over all
sub-units of their recorded CPU values": the sum of the recorded
`UsageNanoCores` over the pod's `ContainerStats`. -/
def specSubUnitNanoCoreSum (st : PodStats) : Nat :=
  ((st.containers.getD []).map
    (fun c => ((c.cpu.bind (fun cc => cc.usageNanoCores)).getD 0))).sum

/-- Spec-side definition: the sum of the recorded `UsageCoreNanoSeconds`
over the pod's `ContainerStats`. -/
def specSubUnitNanoSecondSum (st : PodStats) : Nat :=
  ((st.containers.getD []).map
    (fun c => ((c.cpu.bind (fun cc => cc.usageCoreNanoSeconds)).getD 0))).sum

/-! ## Claims -/

/-- C5: for a CPU-usage series entry with ordered data points
`[(t1 = 100, avg = 5), (t2 = 160, avg = 12)]` attributed to sub-unit
`"web"`, `collectMetrics` records on that sub-unit's `ContainerStats`
`UsageNanoCores = 12000000` and `UsageCoreNanoSeconds = 720000000` with
timestamp `t2 = 160` (second conjunct), and the data point before the
last is ignored: the result is identical to the one for the same input
with the earlier point removed (first conjunct). -/
theorem collectMetrics_last_point_wins :
    collectMetrics cpod
      { value := some [
          { name := some { value := some MetricTypeCPUUsage },
            timeseries := some [
              { metadatavalues := some [webMeta],
                data := some [{ timeStamp := some 100, average := some 5 },
                              { timeStamp := some 160, average := some 12 }] }] }] }
      emptyResponse
    = collectMetrics cpod
      { value := some [
          { name := some { value := some MetricTypeCPUUsage },
            timeseries := some [
              { metadatavalues := some [webMeta],
                data := some [{ timeStamp := some 160, average := some 12 }] }] }] }
      emptyResponse
    ∧ collectMetrics cpod
      { value := some [
          { name := some { value := some MetricTypeCPUUsage },
            timeseries := some [
              { metadatavalues := some [webMeta],
                data := some [{ timeStamp := some 100, average := some 5 },
                              { timeStamp := some 160, average := some 12 }] }] }] }
      emptyResponse
    = some { podRef := { name := "p", nspace := "ns", uid := "u" },
             startTime := 50,
             containers := some [
               { name := "web", startTime := 50,
                 cpu := some { time := 160, usageNanoCores := some 12000000,
                               usageCoreNanoSeconds := some 720000000 },
                 memory := none }],
             cpu := some { time := 160, usageNanoCores := some 12000000,
                           usageCoreNanoSeconds := some 720000000 },
             memory := none, network := none } := by decide

/-- C4: the retry decision holds exactly for transient network errors and
for status codes in the fixed set {408, 429, 500, 502, 503, 504} (the
declared `StatusCodesForRetry`), and the configured attempt cap is 4. -/
theorem shouldRetry_iff_fixed_set :
    (∀ code : Nat, shouldRetry (some code) = true ↔
      (code = 408 ∨ code = 429 ∨ code = 500 ∨ code = 502 ∨ code = 503 ∨
        code = 504))
    ∧ shouldRetry none = true ∧ defaultRetryMax = 4 := by
  refine ⟨fun code => ?_, rfl, rfl⟩
  simp [shouldRetry, StatusCodesForRetry]

/-- C3 counterexample: on the success path the task does NOT release the
admission gate before the merge step: the trace of a task whose two
fetches succeed contains `merge`, and the gate release does not precede
it (the deferred `<-sema` runs only when the closure returns). -/
theorem taskTrace_release_not_before_merge :
    TaskStep.merge ∈ taskTrace true true ∧
    ¬ (taskTrace true true).indexOf TaskStep.releaseGate
        < (taskTrace true true).indexOf TaskStep.merge := by decide

/-- C3 amended: every per-target task acquires the admission gate before
issuing its two remote metrics calls and releases it when the task
returns — i.e. after its own fetch completes on a failure path, but on
the success path only after the merge (`collectMetrics`) and the result
send, so a task does hold its gate slot while merging. -/
theorem taskTrace_gate_bracket :
    (∀ sysOk netOk : Bool,
        (taskTrace sysOk netOk).head? = some TaskStep.acquireGate ∧
        (taskTrace sysOk netOk).getLast? = some TaskStep.releaseGate ∧
        (taskTrace sysOk netOk).indexOf TaskStep.acquireGate
          < (taskTrace sysOk netOk).indexOf TaskStep.fetchSystem) ∧
    (taskTrace true true).indexOf TaskStep.merge
      < (taskTrace true true).indexOf TaskStep.releaseGate ∧
    (taskTrace true false).indexOf TaskStep.fetchNet
      < (taskTrace true false).indexOf TaskStep.releaseGate ∧
    (taskTrace false true).indexOf TaskStep.fetchSystem
      < (taskTrace false true).indexOf TaskStep.releaseGate := by decide

/-- C9: for any number `n` of running targets with `n > 10`, no state
reachable during a collection round has more than `semaCapacity = 10`
tasks holding the admission gate simultaneously. -/
theorem gate_holding_bounded (n : Nat) (s : GateState) (_hn : 10 < n)
    (hs : GateReachable n s) : s.holding ≤ semaCapacity := by
  induction hs with
  | refl => exact Nat.zero_le _
  | tail _ step ih =>
    cases step with
    | acquire w h d hlt => exact hlt
    | release w h d => exact Nat.le_of_succ_le_succ (Nat.le_succ_of_le ih)

/-- C9 witness: with 11 running targets, the state after one task has
acquired the gate is reachable and holds the bound. -/
theorem gate_holding_bounded_witness :
    (⟨10, 1, 0⟩ : GateState).holding ≤ semaCapacity :=
  gate_holding_bounded 11 ⟨10, 1, 0⟩ (by decide)
    (Relation.ReflTransGen.single (GateStep.acquire 10 0 0 (by decide)))

/-- C6 counterexample: the pod-level CPU roll-up does NOT always equal the
sum over sub-units of their recorded values: when the same sub-unit
`"web"` appears in two CPU time-series entries (averages 1 and 3), the
roll-up sums both entries (4000000) while the sub-unit records only the
last entry (3000000), and `4000000 ≠ 3000000`. -/
theorem collectMetrics_rollup_counterexample :
    ((collectMetrics cpod
        { value := some [cpuMetric [cpuEntry "web" 1, cpuEntry "web" 3]] }
        emptyResponse).map
      (fun st => (podUsageNanoCores st, specSubUnitNanoCoreSum st)))
      = some (some 4000000, 3000000) ∧ (4000000 : Nat) ≠ 3000000 := by decide

/-- C6 amended: the pod-level CPU roll-up sums the contributions of all
processed CPU entries of the round; when every sub-unit contributes
exactly one entry — here two sub-units with recorded `UsageNanoCores`
1000000 and 3000000 — the pod-level `UsageNanoCores` equals the sum of
the sub-units' recorded values, 4000000, and likewise
`UsageCoreNanoSeconds` (240000000 = 60000000 + 180000000). -/
theorem collectMetrics_rollup_sum :
    ((collectMetrics cpod
        { value := some [cpuMetric [cpuEntry "a" 1, cpuEntry "b" 3]] }
        emptyResponse).map
      (fun st => (podUsageNanoCores st, specSubUnitNanoCoreSum st,
                  podUsageCoreNanoSeconds st, specSubUnitNanoSecondSum st)))
      = some (some 4000000, 4000000, some 240000000, 240000000) := by decide

/-- C8: for each network metric series only the first time-series entry is
consulted (first conjunct: dropping every later entry never changes the
result, for any state and any metric name) and within it only the last
data point; the bytes-received metric sets `RxBytes` (9, the last of the
two points, not 7), the bytes-transmitted metric sets `TxBytes` (4), the
point's timestamp is attached and the interface name is `"eth0"` (second
conjunct, where the received-bytes metric carries a second, never-read
time-series entry). -/
theorem collectMetrics_network_single_sample :
    (∀ (st : PodStats) (nameM : Option LocalizableString)
        (e1 : TimeSeriesElement) (rest : List TimeSeriesElement),
        processNetMetric st { name := nameM, timeseries := some (e1 :: rest) }
          = processNetMetric st { name := nameM, timeseries := some [e1] }) ∧
    collectMetrics cpod emptyResponse
      { value := some [
          { name := some { value := some MetricTyperNetworkBytesRecievedPerSecond },
            timeseries := some [
              { metadatavalues := none,
                data := some [{ timeStamp := some 100, average := some 7 },
                              { timeStamp := some 160, average := some 9 }] },
              { metadatavalues := none,
                data := some [{ timeStamp := some 300, average := some 100 }] }] },
          { name := some { value := some MetricTyperNetworkBytesTransmittedPerSecond },
            timeseries := some [
              { metadatavalues := none,
                data := some [{ timeStamp := some 170, average := some 4 }] }] }] }
      = some { podRef := { name := "p", nspace := "ns", uid := "u" },
               startTime := 50,
               network := some { time := 170, name := "eth0",
                                 rxBytes := some 9, txBytes := some 4 } } :=
  ⟨fun _ _ _ _ => rfl, by decide⟩

/-- If no task of the round panics, the round itself does not crash. -/
theorem runTasks_fst_isSome (f g : Pod → Except String Response)
    (pods : List Pod)
    (hnp : ∀ pod ∈ pods, (runTask f g pod).1 ≠ .ok none) :
    (runTasks f g pods).1.isSome := by
  induction pods with
  | nil => simp [runTasks]
  | cons pod rest ih =>
    have hhd := hnp pod (List.mem_cons_self pod rest)
    have htl : ∀ q ∈ rest, (runTask f g q).1 ≠ .ok none :=
      fun q hq => hnp q (List.mem_cons_of_mem _ hq)
    have ih' := ih htl
    simp only [runTasks]
    cases hr : (runTask f g pod).1 with
    | ok o =>
      cases o with
      | none => exact absurd hr hhd
      | some stat =>
        cases hrs : (runTasks f g rest).1 with
        | none => rw [hrs] at ih'; simp at ih'
        | some r => cases r <;> simp
    | error e =>
      cases hrs : (runTasks f g rest).1 with
      | none => rw [hrs] at ih'; simp at ih'
      | some r => simp

/-- If no task of the round panics and some task fails, the round
surfaces a task error. -/
theorem runTasks_fst_error (f g : Pod → Except String Response)
    (pods : List Pod)
    (hnp : ∀ pod ∈ pods, (runTask f g pod).1 ≠ .ok none)
    (herr : ∃ pod ∈ pods, ∃ e, (runTask f g pod).1 = .error e) :
    ∃ e, (runTasks f g pods).1 = some (.error e) := by
  induction pods with
  | nil =>
    rcases herr with ⟨pod, hmem, -⟩
    exact absurd hmem (List.not_mem_nil pod)
  | cons pod rest ih =>
    have hhd := hnp pod (List.mem_cons_self pod rest)
    have htl : ∀ q ∈ rest, (runTask f g q).1 ≠ .ok none :=
      fun q hq => hnp q (List.mem_cons_of_mem _ hq)
    have hsome := runTasks_fst_isSome f g rest htl
    simp only [runTasks]
    cases hr : (runTask f g pod).1 with
    | error e =>
      obtain ⟨r, hrs⟩ := Option.isSome_iff_exists.mp hsome
      rw [hrs]
      exact ⟨e, rfl⟩
    | ok o =>
      cases o with
      | none => exact absurd hr hhd
      | some stat =>
        have herr' : ∃ q ∈ rest, ∃ e, (runTask f g q).1 = .error e := by
          rcases herr with ⟨q, hq, e, he⟩
          rcases List.mem_cons.mp hq with hq1 | hq2
          · subst hq1; rw [hr] at he; exact absurd he (by simp)
          · exact ⟨q, hq2, e, he⟩
        obtain ⟨e, he⟩ := ih htl herr'
        rw [he]
        exact ⟨e, rfl⟩

/-- C1: if the cache is stale and any one of the per-target fetch tasks of
the round fails (and no task panics, so that the process survives to
return), `GetStatsSummary` returns an error and the cache slot
`(p.lastMetric, p.metricsSyncTime)` is returned unchanged, equal to its
pre-round value. -/
theorem getStatsSummary_fail_fast (p : ProviderState) (nodeName : String)
    (now : Int) (ctxDone : Bool) (pods : List Pod)
    (f g : Pod → Except String Response)
    (hstale : ¬ now - p.metricsSyncTime < timeMinute)
    (hnp : ∀ pod ∈ pods.filter (fun q => q.phase == podRunning),
      (runTask f g pod).1 ≠ .ok none)
    (herr : ∃ pod ∈ pods.filter (fun q => q.phase == podRunning),
      ∃ e, (runTask f g pod).1 = .error e) :
    ∃ e calls, GetStatsSummary p nodeName now ctxDone pods f g
      = some (.error e, p, calls) := by
  unfold GetStatsSummary
  rw [if_neg hstale]
  cases ctxDone with
  | true => exact ⟨.ctxCancelled, 0, by rw [if_pos rfl]⟩
  | false =>
    rw [if_neg Bool.false_ne_true]
    obtain ⟨e, he⟩ := runTasks_fst_error f g _ hnp herr
    cases hrt : runTasks f g (pods.filter (fun q => q.phase == podRunning)) with
    | mk r1 c =>
      rw [hrt] at he
      simp only at he
      subst he
      exact ⟨.fetchFailed e, c, rfl⟩

/-- A pod used by the orchestrator witnesses. -/
def wpod : Pod :=
  { name := "w", nspace := "ns", uid := "u1", phase := podRunning,
    creationTimestamp := 0 }

/-- A fetch oracle that always fails. -/
def failFetch : Pod → Except String Response := fun _ => .error "boom"

/-- A fetch oracle that always returns an empty response. -/
def okFetch : Pod → Except String Response := fun _ => .ok emptyResponse

/-- C1 witness: a stale cache, one running pod whose cpu/mem fetch fails. -/
theorem getStatsSummary_fail_fast_witness :
    ∃ e calls,
      GetStatsSummary ⟨none, 0⟩ "vk" timeMinute false [wpod] failFetch okFetch
        = some (.error e, ⟨none, 0⟩, calls) :=
  getStatsSummary_fail_fast ⟨none, 0⟩ "vk" timeMinute false [wpod]
    failFetch okFetch (by decide) (by decide)
    ⟨wpod, by decide,
      { family := .systemStats, podName := "w", podNamespace := "ns",
        underlying := "boom" }, by decide⟩

/-- C2: if a first call to `GetStatsSummary` at time `t1` misses the cache
and succeeds (storing the produced Summary `s` at `t1`), then any second
call strictly less than one minute after the stored `metricsSyncTime`
returns the identical cached Summary `s`, leaves the state unchanged, and
issues zero remote metrics calls — regardless of the second call's pod
list, fetch oracles, or context state. -/
theorem getStatsSummary_cache_freshness (p p1 : ProviderState)
    (nodeName : String) (t1 t2 : Int) (pods pods2 : List Pod)
    (f g f2 g2 : Pod → Except String Response) (d2 : Bool) (s : Summary)
    (c : Nat)
    (hmiss : ¬ t1 - p.metricsSyncTime < timeMinute)
    (h1 : GetStatsSummary p nodeName t1 false pods f g
      = some (.ok (some s), p1, c))
    (hfresh : t2 - p1.metricsSyncTime < timeMinute) :
    GetStatsSummary p1 nodeName t2 d2 pods2 f2 g2
      = some (.ok (some s), p1, 0) := by
  unfold GetStatsSummary at h1 ⊢
  rw [if_neg hmiss] at h1
  simp only [Bool.false_eq_true, if_false] at h1
  have hlast : p1.lastMetric = some s := by
    cases hrt : runTasks f g (pods.filter (fun q => q.phase == podRunning)) with
    | mk r1 cc =>
      rw [hrt] at h1
      match r1, h1 with
      | some (.ok l), h1 =>
        simp only [Option.some.injEq, Prod.mk.injEq] at h1
        obtain ⟨hok, hp1, -⟩ := h1
        rw [← hp1]
        simp only [Except.ok.injEq] at hok
        rw [hok]
  rw [if_pos hfresh, hlast]

/-- C2 witness: an empty round succeeds and stores the Summary at
`timeMinute`; one nanosecond later a second call (with a cancelled
context, a running pod and a failing oracle, none of which matter) serves
the cached value with zero remote calls. -/
theorem getStatsSummary_cache_freshness_witness :
    GetStatsSummary ⟨some ⟨"vk", []⟩, timeMinute⟩ "vk" (timeMinute + 1)
      true [wpod] failFetch okFetch
      = some (.ok (some ⟨"vk", []⟩), ⟨some ⟨"vk", []⟩, timeMinute⟩, 0) :=
  getStatsSummary_cache_freshness ⟨none, 0⟩ ⟨some ⟨"vk", []⟩, timeMinute⟩
    "vk" timeMinute (timeMinute + 1) [] [wpod] okFetch okFetch failFetch
    okFetch true ⟨"vk", []⟩ 0 (by decide) (by decide) (by decide)

/-- A metadata list none of whose values is named `containerName`
(case-insensitively), each with a non-`nil` name: the metadata loop
leaves the accumulator and the attributed container unchanged. -/
theorem metaLoop_no_attr (startTime : Int) (mvs : List MetadataValue)
    (m : CSMap) (cur : Option (String × ContainerStats))
    (h : ∀ v ∈ mvs, ∃ nm, v.name = some nm ∧
      strToLower (toStr nm.value) ≠ "containername") :
    metaLoop startTime mvs m cur = some (m, cur) := by
  induction mvs with
  | nil => rfl
  | cons v rest ih =>
    obtain ⟨nm, hv, hne⟩ := h v (List.mem_cons_self v rest)
    rw [metaLoop, hv]
    simp only [if_pos hne]
    exact ih (fun w hw => h w (List.mem_cons_of_mem _ hw))

/-- A time-series entry with data points but no `containerName` metadata
is skipped by `processEntry`: the state is returned unchanged and no
error (panic) occurs. -/
theorem processEntry_unattributed (startTime : Int)
    (mName : Option LocalizableString) (st : PodStats × CSMap)
    (entry : TimeSeriesElement) (d0 : MetricValue) (ds : List MetricValue)
    (mvs : List MetadataValue)
    (hdata : entry.data = some (d0 :: ds))
    (hmv : entry.metadatavalues = some mvs)
    (h : ∀ v ∈ mvs, ∃ nm, v.name = some nm ∧
      strToLower (toStr nm.value) ≠ "containername") :
    processEntry startTime mName st entry = some st := by
  rw [processEntry, hdata, hmv]
  simp only []
  rw [metaLoop_no_attr startTime mvs st.2 none h]

/-- Folding a step function over a list containing an element that is
neutral for every state gives the same result as folding over the list
with that element removed. -/
theorem foldlM_neutral_elem {α σ : Type} (f : σ → α → Option σ) (e : α)
    (he : ∀ s, f s e = some s) (l1 l2 : List α) (s : σ) :
    List.foldlM f s (l1 ++ e :: l2) = List.foldlM f s (l1 ++ l2) := by
  induction l1 generalizing s with
  | nil => simp [List.foldlM_cons, he]
  | cons a l1 ih =>
    simp only [List.cons_append, List.foldlM_cons]
    cases f s a with
    | none => rfl
    | some s' => simp only [Option.bind_eq_bind, Option.some_bind]; exact ih s'

/-- Replacing one element of the folded list by another that acts the same
on every state leaves a monadic fold unchanged. -/
theorem foldlM_congr_elem {α σ : Type} (f : σ → α → Option σ) (a a' : α)
    (hb : ∀ s, f s a = f s a') (l1 l2 : List α) (s : σ) :
    List.foldlM f s (l1 ++ a :: l2) = List.foldlM f s (l1 ++ a' :: l2) := by
  induction l1 generalizing s with
  | nil => simp only [List.nil_append, List.foldlM_cons, hb]
  | cons b l1 ih =>
    simp only [List.cons_append, List.foldlM_cons]
    cases f s b with
    | none => rfl
    | some s' => simp only [Option.bind_eq_bind, Option.some_bind]; exact ih s'

/-- C7: a compute-series time-series entry that has data points but no
metadata field case-insensitively named `containerName` (every metadata
name present but none matching) contributes nothing at all: wherever the
entry sits inside whichever system metric, `collectMetrics` returns
exactly what it returns with the entry removed — so the entry touches no
`ContainerStats` accumulator, no pod-level roll-up, and causes no
failure. -/
theorem collectMetrics_unattributed_entry_skip (pod : Pod) (net : Response)
    (nameM : Option LocalizableString) (ms1 ms2 : List Metric)
    (ts1 ts2 : List TimeSeriesElement) (entry : TimeSeriesElement)
    (d0 : MetricValue) (ds : List MetricValue) (mvs : List MetadataValue)
    (hdata : entry.data = some (d0 :: ds))
    (hmv : entry.metadatavalues = some mvs)
    (h : ∀ v ∈ mvs, ∃ nm, v.name = some nm ∧
      strToLower (toStr nm.value) ≠ "containername") :
    collectMetrics pod
      { value := some (ms1 ++
          { name := nameM, timeseries := some (ts1 ++ entry :: ts2) } :: ms2) }
      net
    = collectMetrics pod
      { value := some (ms1 ++
          { name := nameM, timeseries := some (ts1 ++ ts2) } :: ms2) }
      net := by
  have hm : ∀ st : PodStats × CSMap,
      processMetric pod.creationTimestamp st
        { name := nameM, timeseries := some (ts1 ++ entry :: ts2) }
      = processMetric pod.creationTimestamp st
        { name := nameM, timeseries := some (ts1 ++ ts2) } := by
    intro st
    simp only [processMetric]
    exact foldlM_neutral_elem _ entry
      (fun s => processEntry_unattributed pod.creationTimestamp nameM s entry
        d0 ds mvs hdata hmv h) ts1 ts2 st
  simp only [collectMetrics]
  rw [foldlM_congr_elem (processMetric pod.creationTimestamp) _ _ hm ms1 ms2]

/-- C7 witness: a concrete unattributed entry (metadata named
`someOtherName`) inside a CPU metric, next to an attributed entry,
changes nothing, and the common result is the attributed-only stats. -/
theorem collectMetrics_unattributed_entry_skip_witness :
    collectMetrics cpod
      { value := some [
          { name := some { value := some MetricTypeCPUUsage },
            timeseries := some [cpuEntry "web" 3,
              { metadatavalues := some [{ name := some { value := some "someOtherName" },
                                          value := some "x" }],
                data := some [{ timeStamp := some 190, average := some 7 }] }] }] }
      emptyResponse
    = collectMetrics cpod
      { value := some [
          { name := some { value := some MetricTypeCPUUsage },
            timeseries := some [cpuEntry "web" 3] }] }
      emptyResponse :=
  collectMetrics_unattributed_entry_skip cpod emptyResponse
    (some { value := some MetricTypeCPUUsage }) [] []
    [cpuEntry "web" 3] []
    { metadatavalues := some [{ name := some { value := some "someOtherName" },
                                value := some "x" }],
      data := some [{ timeStamp := some 190, average := some 7 }] }
    { timeStamp := some 190, average := some 7 } []
    [{ name := some { value := some "someOtherName" }, value := some "x" }]
    rfl rfl
    (by
      intro v hv
      simp only [List.mem_singleton] at hv
      subst hv
      exact ⟨{ value := some "someOtherName" }, rfl, by decide⟩)

/-! ## C10: totality of `collectMetrics` -/

/-- The claim's stated precondition on a time-series entry: an entry with
a non-empty `Data` slice has a non-nil `Metadatavalues` slice. -/
def entryOkStated (e : TimeSeriesElement) : Bool :=
  match e.data with
  | some (_ :: _) => e.metadatavalues.isSome
  | _ => true

/-- The claim's stated precondition on a metric: non-nil `Name`, non-nil
`Timeseries`, entries as in `entryOkStated`. -/
def metricOkStated (m : Metric) : Bool :=
  m.name.isSome &&
    (match m.timeseries with
     | none => false
     | some ts => ts.all entryOkStated)

/-- The claim's stated precondition on a response: non-nil `Value`,
metrics as in `metricOkStated`. -/
def responseOkStated (r : Response) : Bool :=
  match r.value with
  | none => false
  | some ms => ms.all metricOkStated

/-- C10's precondition exactly as the claim states it. -/
def preStated (system net : Response) : Bool :=
  responseOkStated system && responseOkStated net

/-- `entryOkStated` strengthened with the missing condition: every
metadata value of a data-carrying entry has a non-nil `Name` (the code
dereferences `v.Name` for every metadata value of such an entry). -/
def entryOkFull (e : TimeSeriesElement) : Bool :=
  match e.data with
  | some (_ :: _) =>
    match e.metadatavalues with
    | none => false
    | some mvs => mvs.all (fun v => v.name.isSome)
  | _ => true

/-- `metricOkStated` with `entryOkFull` entries. -/
def metricOkFull (m : Metric) : Bool :=
  m.name.isSome &&
    (match m.timeseries with
     | none => false
     | some ts => ts.all entryOkFull)

/-- `responseOkStated` with `metricOkFull` metrics. -/
def responseOkFull (r : Response) : Bool :=
  match r.value with
  | none => false
  | some ms => ms.all metricOkFull

/-- What the network loop needs of a metric: non-nil `Name` and non-nil
`Timeseries`; it never reads metadata, so no condition on
`Metadatavalues`. -/
def metricOkNet (m : Metric) : Bool :=
  m.name.isSome && m.timeseries.isSome

/-- The network-response side of the amended precondition: non-nil
`Value` and `metricOkNet` metrics. -/
def responseOkNet (r : Response) : Bool :=
  match r.value with
  | none => false
  | some ms => ms.all metricOkNet

/-- The amended precondition: the compute response additionally has
non-nil metadata-value names on its data-carrying entries
(`responseOkFull`), while the network response needs only non-nil
`Value`, `Name` and `Timeseries` pointers (`responseOkNet`) — the
network loop never reads metadata. -/
def preFull (system net : Response) : Bool :=
  responseOkFull system && responseOkNet net

/-- C10 counterexample: an input satisfying the claim's stated
precondition on which `collectMetrics` panics — a data-carrying CPU entry
whose single metadata value has a nil `Name`, dereferenced by the code at
`v.Name.Value`. -/
theorem collectMetrics_stated_precondition_insufficient :
    preStated
      { value := some [
          { name := some { value := some MetricTypeCPUUsage },
            timeseries := some [
              { metadatavalues := some [{ name := none, value := some "web" }],
                data := some [{ timeStamp := none, average := some 5 }] }] }] }
      emptyResponse = true
    ∧ collectMetrics cpod
      { value := some [
          { name := some { value := some MetricTypeCPUUsage },
            timeseries := some [
              { metadatavalues := some [{ name := none, value := some "web" }],
                data := some [{ timeStamp := none, average := some 5 }] }] }] }
      emptyResponse = none := by decide

/-- Internal invariant of the system pass: the pod-level roll-ups, once
allocated, have their pointer fields set (they are created pointing at
zero and only updated through those pointers). -/
def rollupInv (st : PodStats) : Prop :=
  (∀ c, st.cpu = some c →
    c.usageCoreNanoSeconds.isSome = true ∧ c.usageNanoCores.isSome = true) ∧
  (∀ mm, st.memory = some mm → mm.usageBytes.isSome = true)

/-- The metadata loop cannot panic when every metadata value has a
non-nil name. -/
theorem metaLoop_isSome (startTime : Int) (mvs : List MetadataValue)
    (m : CSMap) (cur : Option (String × ContainerStats))
    (h : ∀ v ∈ mvs, v.name.isSome = true) :
    (metaLoop startTime mvs m cur).isSome = true := by
  induction mvs generalizing m cur with
  | nil => rfl
  | cons v rest ih =>
    have hv := h v (List.mem_cons_self v rest)
    have htl : ∀ w ∈ rest, w.name.isSome = true :=
      fun w hw => h w (List.mem_cons_of_mem _ hw)
    cases hn : v.name with
    | none => rw [hn] at hv; simp at hv
    | some nm =>
      simp only [metaLoop, hn]
      split
      · exact ih _ _ htl
      · split
        · exact ih _ _ htl
        · exact ih _ _ htl

/-- `processEntry` cannot panic on an `entryOkFull` entry with a non-nil
metric name, and it preserves the roll-up invariant. -/
theorem processEntry_total (startTime : Int)
    (mName : Option LocalizableString) (st : PodStats × CSMap)
    (entry : TimeSeriesElement)
    (hname : mName.isSome = true)
    (hentry : entryOkFull entry = true)
    (hinv : rollupInv st.1) :
    ∃ st', processEntry startTime mName st entry = some st'
      ∧ rollupInv st'.1 := by
  obtain ⟨nm, hnm⟩ := Option.isSome_iff_exists.mp hname
  cases hd : entry.data with
  | none => exact ⟨st, by rw [processEntry, hd], hinv⟩
  | some l =>
    cases l with
    | nil => exact ⟨st, by rw [processEntry, hd], hinv⟩
    | cons d0 ds =>
      unfold entryOkFull at hentry
      rw [hd] at hentry
      simp only [] at hentry
      cases hm : entry.metadatavalues with
      | none => rw [hm] at hentry; simp at hentry
      | some mvs =>
        rw [hm] at hentry
        simp only [List.all_eq_true] at hentry
        have hml := metaLoop_isSome startTime mvs st.2 none hentry
        obtain ⟨res, hres⟩ := Option.isSome_iff_exists.mp hml
        obtain ⟨csMap, cur⟩ := res
        rw [processEntry, hd, hm]
        simp only []
        rw [hres]
        cases cur with
        | none => exact ⟨(st.1, csMap), rfl, hinv⟩
        | some kc =>
          obtain ⟨key, cs⟩ := kc
          simp only []
          rw [hnm]
          simp only []
          by_cases hcpu : toStr nm.value = MetricTypeCPUUsage
          · rw [if_pos hcpu]
            cases hstc : st.1.cpu with
            | none =>
              simp only [Option.getD_none]
              refine ⟨_, rfl, ?_⟩
              refine ⟨fun c hc => ?_, fun mm hmm => ?_⟩
              · simp only [Option.some.injEq] at hc
                subst hc
                exact ⟨rfl, rfl⟩
              · simp only [] at hmm
                exact hinv.2 mm hmm
            | some pc =>
              obtain ⟨hs0, hc0⟩ := hinv.1 pc hstc
              obtain ⟨s0, hs0'⟩ := Option.isSome_iff_exists.mp hs0
              obtain ⟨c0, hc0'⟩ := Option.isSome_iff_exists.mp hc0
              simp only [Option.getD_some]
              rw [hs0', hc0']
              refine ⟨_, rfl, ?_⟩
              refine ⟨fun c hc => ?_, fun mm hmm => ?_⟩
              · simp only [Option.some.injEq] at hc
                subst hc
                exact ⟨rfl, rfl⟩
              · simp only [] at hmm
                exact hinv.2 mm hmm
          · rw [if_neg hcpu]
            by_cases hmem : toStr nm.value = MetricTypeMemoryUsage
            · rw [if_pos hmem]
              cases hstm : st.1.memory with
              | none =>
                simp only [Option.getD_none]
                refine ⟨_, rfl, ?_⟩
                refine ⟨fun c hc => ?_, fun mm hmm => ?_⟩
                · simp only [] at hc
                  exact hinv.1 c hc
                · simp only [Option.some.injEq] at hmm
                  subst hmm
                  exact rfl
              | some pm =>
                have hb0 := hinv.2 pm hstm
                obtain ⟨b0, hb0'⟩ := Option.isSome_iff_exists.mp hb0
                simp only [Option.getD_some]
                rw [hb0']
                refine ⟨_, rfl, ?_⟩
                refine ⟨fun c hc => ?_, fun mm hmm => ?_⟩
                · simp only [] at hc
                  exact hinv.1 c hc
                · simp only [Option.some.injEq] at hmm
                  subst hmm
                  exact rfl
            · rw [if_neg hmem]
              refine ⟨_, rfl, ?_⟩
              refine ⟨fun c hc => ?_, fun mm hmm => ?_⟩
              · simp only [] at hc
                exact hinv.1 c hc
              · simp only [] at hmm
                exact hinv.2 mm hmm

/-- Folding `processEntry` over a list of `entryOkFull` entries cannot
panic and preserves the roll-up invariant. -/
theorem foldEntries_total (startTime : Int)
    (mName : Option LocalizableString) (ts : List TimeSeriesElement)
    (st : PodStats × CSMap)
    (hname : mName.isSome = true)
    (hts : ts.all entryOkFull = true)
    (hinv : rollupInv st.1) :
    ∃ st', ts.foldlM (processEntry startTime mName) st = some st'
      ∧ rollupInv st'.1 := by
  induction ts generalizing st with
  | nil => exact ⟨st, rfl, hinv⟩
  | cons e rest ih =>
    rw [List.all_cons, Bool.and_eq_true] at hts
    obtain ⟨st1, h1, hinv1⟩ :=
      processEntry_total startTime mName st e hname hts.1 hinv
    obtain ⟨st2, h2, hinv2⟩ := ih st1 hts.2 hinv1
    refine ⟨st2, ?_, hinv2⟩
    rw [List.foldlM_cons, h1]
    simpa using h2

/-- `processMetric` cannot panic on a `metricOkFull` metric and preserves
the roll-up invariant. -/
theorem processMetric_total (startTime : Int) (st : PodStats × CSMap)
    (m : Metric) (hm : metricOkFull m = true) (hinv : rollupInv st.1) :
    ∃ st', processMetric startTime st m = some st' ∧ rollupInv st'.1 := by
  unfold metricOkFull at hm
  rw [Bool.and_eq_true] at hm
  obtain ⟨hname, hts⟩ := hm
  cases hts' : m.timeseries with
  | none => rw [hts'] at hts; simp at hts
  | some ts =>
    rw [hts'] at hts
    rw [processMetric, hts']
    exact foldEntries_total startTime m.name ts st hname hts hinv

/-- Folding `processMetric` over `metricOkFull` metrics cannot panic. -/
theorem foldMetrics_total (startTime : Int) (ms : List Metric)
    (st : PodStats × CSMap)
    (hms : ms.all metricOkFull = true)
    (hinv : rollupInv st.1) :
    ∃ st', ms.foldlM (processMetric startTime) st = some st'
      ∧ rollupInv st'.1 := by
  induction ms generalizing st with
  | nil => exact ⟨st, rfl, hinv⟩
  | cons m rest ih =>
    rw [List.all_cons, Bool.and_eq_true] at hms
    obtain ⟨st1, h1, hinv1⟩ := processMetric_total startTime st m hms.1 hinv
    obtain ⟨st2, h2, hinv2⟩ := ih st1 hms.2 hinv1
    refine ⟨st2, ?_, hinv2⟩
    rw [List.foldlM_cons, h1]
    simpa using h2

/-- The network loop cannot panic on a `metricOkNet` metric (it never
reads metadata, so nothing is required of `Metadatavalues`). -/
theorem processNetMetric_total (st : PodStats) (m : Metric)
    (hm : metricOkNet m = true) :
    (processNetMetric st m).isSome = true := by
  unfold metricOkNet at hm
  rw [Bool.and_eq_true] at hm
  obtain ⟨hname, hts⟩ := hm
  obtain ⟨nm, hnm⟩ := Option.isSome_iff_exists.mp hname
  cases hts' : m.timeseries with
  | none => rw [hts'] at hts; simp at hts
  | some ts =>
    rw [processNetMetric, hts']
    cases ts with
    | nil => rfl
    | cons entry rest =>
      simp only []
      cases entry.data with
      | none => rfl
      | some l =>
        cases l with
        | nil => rfl
        | cons d0 ds =>
          simp only []
          rw [hnm]
          simp only []
          split <;> rfl

/-- Folding the network loop over `metricOkNet` metrics cannot
panic. -/
theorem foldNet_total (ns : List Metric) (st : PodStats)
    (hns : ns.all metricOkNet = true) :
    (ns.foldlM processNetMetric st).isSome = true := by
  induction ns generalizing st with
  | nil => rfl
  | cons m rest ih =>
    rw [List.all_cons, Bool.and_eq_true] at hns
    obtain ⟨st1, h1⟩ :=
      Option.isSome_iff_exists.mp (processNetMetric_total st m hns.1)
    rw [List.foldlM_cons, h1]
    simpa using ih st1 hns.2

/-- C10 amended: `collectMetrics` is total (returns a `PodStats` without
panicking) for every input in which `system.Value` and `net.Value` are
non-nil, every metric of either response has non-nil `Timeseries` and
`Name` pointers, and every time-series entry of the compute response
with a non-empty `Data` slice has a non-nil `Metadatavalues` slice all
of whose metadata values have non-nil `Name` pointers (the network
response needs no metadata condition — the network loop never reads
metadata); under this precondition every pointer dereference in the
function is defined. -/
theorem collectMetrics_total (pod : Pod) (system net : Response)
    (h : preFull system net = true) :
    (collectMetrics pod system net).isSome = true := by
  unfold preFull at h
  rw [Bool.and_eq_true] at h
  obtain ⟨hsys, hnet⟩ := h
  unfold responseOkFull at hsys
  unfold responseOkNet at hnet
  cases hsv : system.value with
  | none => rw [hsv] at hsys; simp at hsys
  | some ms =>
    rw [hsv] at hsys
    cases hnv : net.value with
    | none => rw [hnv] at hnet; simp at hnet
    | some ns =>
      rw [hnv] at hnet
      have hinv0 : rollupInv { startTime := pod.creationTimestamp } := by
        constructor
        · intro c hc
          cases hc
        · intro mm hmm
          cases hmm
      obtain ⟨st1, h1, -⟩ := foldMetrics_total pod.creationTimestamp ms
        ({ startTime := pod.creationTimestamp }, ([] : CSMap)) hsys hinv0
      obtain ⟨stat1, csMap⟩ := st1
      obtain ⟨stat2, h2⟩ :=
        Option.isSome_iff_exists.mp (foldNet_total ns stat1 hnet)
      rw [collectMetrics, hsv]
      simp only []
      rw [h1]
      simp only []
      rw [hnv]
      simp only []
      rw [h2]
      rfl

/-- C10 witness: a well-formed one-metric compute response together with
a network response whose data-carrying entry has a nil `Metadatavalues`
slice (allowed, since the network loop never reads metadata) satisfy the
amended precondition, and the merge succeeds. -/
theorem collectMetrics_total_witness :
    (collectMetrics cpod { value := some [cpuMetric [cpuEntry "web" 3]] }
      { value := some [
          { name := some { value := some MetricTyperNetworkBytesRecievedPerSecond },
            timeseries := some [
              { metadatavalues := none,
                data := some [{ timeStamp := some 160, average := some 9 }] }] }] }).isSome
      = true :=
  collectMetrics_total cpod
    { value := some [cpuMetric [cpuEntry "web" 3]] }
    { value := some [
        { name := some { value := some MetricTyperNetworkBytesRecievedPerSecond },
          timeseries := some [
            { metadatavalues := none,
              data := some [{ timeStamp := some 160, average := some 9 }] }] }] }
    (by decide)

end ACI
